import Mathlib

/-!
Verification development for the AdVision AI ad-video generator.

The core under specification is the brief validator, the script/scene
synthesizer, the video-provider selector, the mock video-generation path,
and the frontend request handlers of `frontend/pages/index.js`.

The frontend handlers (`handleGenerateScript`, `handleGenerateVideo`,
`onStartOver`) are embedded directly from `frontend/pages/index.js`.
The backend (`backend/main.py`, `backend/video_service.py`) is not part of
the available source tree — only its documentation (`CLAUDE.md`,
`API_RECOMMENDATIONS.md`, `IMPLEMENTATION_SUMMARY.md`), its callers and its
tests are — so the validator, synthesizer, provider selector and mock
generation path are modelled from the spec, as marked on each definition.
-/

/-- A raw creative brief as submitted by the caller.  Field shape follows
`frontend/pages/index.js` (`adBrief` state) and the `AdBrief` model described
in `CLAUDE.md`: `mood`/`energy` are numbers, `style`/`archetype` are string
identifiers checked against fixed enumerations by the validator. -/
structure RawBrief where
  productName : String
  description : String
  mood : Int
  energy : Int
  style : String
  archetype : String
  targetAudience : String
  callToAction : String
deriving Repr, DecidableEq

/-- The six visual-style identifiers, from `STYLES` in
`frontend/components/PromptRefinement.js` (also listed in `CLAUDE.md`). -/
def styleIds : List String :=
  ["cinematic", "minimalist", "energetic", "warm", "professional", "playful"]

/-- The six story-archetype identifiers, from `ARCHETYPES` in
`frontend/components/PromptRefinement.js` (also listed in `CLAUDE.md`). -/
def archetypeIds : List String :=
  ["hero-journey", "testimonial", "problem-solution", "tutorial", "comedy", "lifestyle"]

/-- One timed segment of the 60-second storyboard
(`Scene` model of the backend, rendered by `frontend/components/Storyboard.js`
which reads `scene.duration`). -/
structure Scene where
  id : Nat
  description : String
  duration : Nat
  narration : Option String
deriving Repr, DecidableEq

/-- The provider configuration surface: presence/value of a Runway-class API
key, a Stability-class API key, and the force-mock flag (`RUNWAY_API_KEY`,
`STABILITY_API_KEY`, `USE_MOCK_VIDEO` in `CLAUDE.md`). -/
structure ProviderConfig where
  runwayKey : Option String
  stabilityKey : Option String
  forceMock : Bool
deriving Repr, DecidableEq

/-- The provider chosen for one generation call. -/
inductive ProviderChoice where
  | runway
  | stability
  | mock
deriving Repr, DecidableEq

/-- Modelled from the spec: the provider-selection logic of
`backend/video_service.py`, which is absent from the source tree.  Its
documented contract (spec §4.3, `API_RECOMMENDATIONS.md` "Code Priority
Order", `CLAUDE.md` "Integration Priority") is a top-down first-match chain:
Runway if a Runway-class key is configured and mock mode is not forced, else
Stability if a Stability-class key is configured and mock mode is not forced,
else Mock.  A pure function of the configuration: no I/O, never fails. -/
def selectProvider (c : ProviderConfig) : ProviderChoice :=
  if c.runwayKey.isSome && !c.forceMock then .runway
  else if c.stabilityKey.isSome && !c.forceMock then .stability
  else .mock

/-- Claim C2: `selectProvider` evaluates the fixed priority order top-down
with first match winning — Runway when a Runway-class key is configured and
mock mode is not forced; otherwise Stability when a Stability-class key is
configured and mock mode is not forced; otherwise Mock.  It is total (a plain
function into `ProviderChoice`, so it never fails). -/
theorem selectProvider_priority_order :
    (∀ k sk, selectProvider ⟨some k, sk, false⟩ = .runway) ∧
    (∀ k, selectProvider ⟨none, some k, false⟩ = .stability) ∧
    (∀ fm, selectProvider ⟨none, none, fm⟩ = .mock) ∧
    (∀ rk sk, selectProvider ⟨rk, sk, true⟩ = .mock) := by
  refine ⟨fun k sk => ?_, fun k => ?_, fun fm => ?_, fun rk sk => ?_⟩
  · simp [selectProvider]
  · simp [selectProvider]
  · cases fm <;> simp [selectProvider]
  · simp [selectProvider]

/-- Claim C3: `selectProvider` returns Mock if and only if `forceMock` is
true or neither key is configured; in particular with no keys the result is
Mock for both values of `forceMock`, and with `forceMock` true the result is
Mock for every key configuration. -/
theorem selectProvider_mock_characterization :
    (∀ c : ProviderConfig,
      selectProvider c = .mock ↔
        (c.forceMock = true ∨ (c.runwayKey = none ∧ c.stabilityKey = none))) ∧
    (∀ fm, selectProvider ⟨none, none, fm⟩ = .mock) ∧
    (∀ rk sk, selectProvider ⟨rk, sk, true⟩ = .mock) := by
  refine ⟨fun c => ?_, fun fm => ?_, fun rk sk => ?_⟩
  · obtain ⟨rk, sk, fm⟩ := c
    cases rk <;> cases sk <;> cases fm <;> simp [selectProvider]
  · cases fm <;> simp [selectProvider]
  · simp [selectProvider]

/-- Claim C8: provider selection is deterministic and side-effect free — it
is a pure function (defined with no effect context, hence no I/O), and any
two configurations agreeing on the observable tuple (Runway key present?,
Stability key present?, forceMock) yield the identical `ProviderChoice`,
regardless of the actual key strings. -/
theorem selectProvider_pure (c₁ c₂ : ProviderConfig)
    (hr : c₁.runwayKey.isSome = c₂.runwayKey.isSome)
    (hs : c₁.stabilityKey.isSome = c₂.stabilityKey.isSome)
    (hf : c₁.forceMock = c₂.forceMock) :
    selectProvider c₁ = selectProvider c₂ := by
  unfold selectProvider
  rw [hr, hs, hf]

/-- Witness for C8: two configurations with distinct Runway key strings but
the same presence tuple select the same provider. -/
theorem selectProvider_pure_witness :
    selectProvider ⟨some "keyA", none, false⟩ = selectProvider ⟨some "keyB", none, false⟩ :=
  selectProvider_pure ⟨some "keyA", none, false⟩ ⟨some "keyB", none, false⟩ rfl rfl rfl

/-- Modelled from the spec: the whitespace trimming the validator of
`backend/main.py` (absent from the source tree) applies before the
non-emptiness checks (spec §4.1 "non-empty after trimming", Python
`str.strip` semantics): leading and trailing whitespace removed. -/
def strip (s : String) : String :=
  String.mk (((s.data.dropWhile Char.isWhitespace).reverse.dropWhile Char.isWhitespace).reverse)

/-- Modelled from the spec: the request validation of `backend/main.py`,
which is absent from the source tree.  Its documented rules
(spec §4.1, `IMPLEMENTATION_SUMMARY.md` "Enhanced Request Validation") are:
`mood`/`energy` in [0,100]; `productName`/`description` non-empty after
trimming; `description` at most 5000 characters; `style`/`archetype` members
of the fixed six-value enumerations.  The validator reports every violated
field, not just the first, so the checks are collected as a list of
field-scoped errors. -/
def briefErrors (b : RawBrief) : List String :=
  (if b.mood < 0 ∨ 100 < b.mood then ["mood"] else []) ++
  (if b.energy < 0 ∨ 100 < b.energy then ["energy"] else []) ++
  (if strip b.productName = "" then ["productName"] else []) ++
  (if strip b.description = "" ∨ 5000 < b.description.length then ["description"] else []) ++
  (if b.style ∈ styleIds then [] else ["style"]) ++
  (if b.archetype ∈ archetypeIds then [] else ["archetype"])

/-- A brief in the validated domain: no validation rule is violated. -/
def ValidBrief (b : RawBrief) : Prop := briefErrors b = []

instance : DecidablePred ValidBrief :=
  fun b => inferInstanceAs (Decidable (briefErrors b = []))

/-- Modelled from the spec: the validator of `backend/main.py` (absent from
the source tree) returns the trimmed brief on success or the full list of
violated fields on failure (spec §4.1: whitespace trimming is automatic). -/
def validateBrief (b : RawBrief) : Except (List String) RawBrief :=
  if briefErrors b = [] then
    .ok { b with productName := strip b.productName, description := strip b.description }
  else
    .error (briefErrors b)

/-- Modelled from the spec: the script/scene synthesizer of
`backend/main.py` (absent from the source tree).  Per spec §4.2 and the
`CLAUDE.md` "Scene Generation" section it deterministically produces a
script referencing the product name, mood and style, and exactly six scenes
with fixed roles and durations 10/8/12/12/8/10 seconds. -/
def synthesize (b : RawBrief) : String × List Scene :=
  let scenes : List Scene :=
    [ { id := 1, description := "Opening Hook: " ++ b.productName ++ " grabs attention in " ++ b.style ++ " style", duration := 10, narration := none },
      { id := 2, description := "The Problem: the pain point " ++ b.productName ++ " addresses", duration := 8, narration := none },
      { id := 3, description := "The Solution: reveal " ++ b.productName, duration := 12, narration := none },
      { id := 4, description := "Transformation: before and after with " ++ b.productName, duration := 12, narration := none },
      { id := 5, description := "Social Proof: testimonials for " ++ b.productName, duration := 8, narration := none },
      { id := 6, description := "Call to Action: " ++ b.callToAction, duration := 10, narration := none } ]
  let script := "Ad script for " ++ b.productName ++ " (" ++ b.style ++ ", " ++
    b.archetype ++ ", mood " ++ toString b.mood ++ ", energy " ++ toString b.energy ++
    "): " ++ b.description
  (script, scenes)

/-- Modelled from the spec: the generate-script operation of
`backend/main.py` (absent from the source tree) composes validation with the
synthesizer (spec §4.5); on validation failure no scene list is produced. -/
def generateScript (b : RawBrief) : Except (List String) (String × List Scene) :=
  match validateBrief b with
  | .ok vb => .ok (synthesize vb)
  | .error e => .error e

theorem mem_ite_singleton {p : Prop} [Decidable p] (hp : p) (a : String) :
    a ∈ (if p then [a] else ([] : List String)) := by
  rw [if_pos hp]; exact List.mem_singleton_self a

theorem mood_in_briefErrors (b : RawBrief) (h : b.mood < 0 ∨ 100 < b.mood) :
    "mood" ∈ briefErrors b := by
  unfold briefErrors
  exact List.mem_append_left _ (List.mem_append_left _ (List.mem_append_left _
    (List.mem_append_left _ (List.mem_append_left _ (mem_ite_singleton h _)))))

theorem energy_in_briefErrors (b : RawBrief) (h : b.energy < 0 ∨ 100 < b.energy) :
    "energy" ∈ briefErrors b := by
  unfold briefErrors
  exact List.mem_append_left _ (List.mem_append_left _ (List.mem_append_left _
    (List.mem_append_left _ (List.mem_append_right _ (mem_ite_singleton h _)))))

theorem productName_in_briefErrors (b : RawBrief) (h : strip b.productName = "") :
    "productName" ∈ briefErrors b := by
  unfold briefErrors
  exact List.mem_append_left _ (List.mem_append_left _ (List.mem_append_left _
    (List.mem_append_right _ (mem_ite_singleton h _))))

theorem description_in_briefErrors (b : RawBrief)
    (h : strip b.description = "" ∨ 5000 < b.description.length) :
    "description" ∈ briefErrors b := by
  unfold briefErrors
  exact List.mem_append_left _ (List.mem_append_left _
    (List.mem_append_right _ (mem_ite_singleton h _)))

theorem style_in_briefErrors (b : RawBrief) (h : b.style ∉ styleIds) :
    "style" ∈ briefErrors b := by
  unfold briefErrors
  refine List.mem_append_left _ (List.mem_append_right _ ?_)
  rw [if_neg h]; exact List.mem_singleton_self _

theorem archetype_in_briefErrors (b : RawBrief) (h : b.archetype ∉ archetypeIds) :
    "archetype" ∈ briefErrors b := by
  unfold briefErrors
  refine List.mem_append_right _ ?_
  rw [if_neg h]; exact List.mem_singleton_self _

theorem generateScript_error_of_errors (b : RawBrief) (h : briefErrors b ≠ []) :
    generateScript b = .error (briefErrors b) := by
  unfold generateScript validateBrief
  rw [if_neg h]

/-- The example brief of spec §8: EcoBottle, a valid brief. -/
def ecoBrief : RawBrief :=
  { productName := "EcoBottle", description := "Reusable bottle", mood := 70, energy := 80,
    style := "cinematic", archetype := "hero-journey", targetAudience := "", callToAction := "" }

/-- Claim C1: for every validated brief, `synthesize` returns exactly six
scenes whose durations are, in order, 10/8/12/12/8/10 seconds and sum to 60;
and on the validated domain the generate-script operation never fails (it
returns `.ok` with the synthesized script and scenes). -/
theorem synthesize_six_fixed_scenes (b : RawBrief) (h : ValidBrief b) :
    ((synthesize b).2).length = 6 ∧
    ((synthesize b).2).map Scene.duration = [10, 8, 12, 12, 8, 10] ∧
    (((synthesize b).2).map Scene.duration).sum = 60 ∧
    ∃ r, generateScript b = .ok r := by
  refine ⟨rfl, rfl, rfl, ?_⟩
  unfold generateScript validateBrief
  rw [if_pos (show briefErrors b = [] from h)]
  exact ⟨_, rfl⟩

/-- Witness for C1: the spec §8 EcoBottle brief is valid, and the theorem
yields the fixed six-scene shape for it. -/
theorem synthesize_six_fixed_scenes_witness :
    ((synthesize ecoBrief).2).length = 6 ∧
    ((synthesize ecoBrief).2).map Scene.duration = [10, 8, 12, 12, 8, 10] ∧
    (((synthesize ecoBrief).2).map Scene.duration).sum = 60 ∧
    ∃ r, generateScript ecoBrief = .ok r :=
  synthesize_six_fixed_scenes ecoBrief (by decide)

/-- Claim C4: a brief with `mood` or `energy` outside [0,100] fails
validation — no scene list is produced, the generate-script operation
returns the error list — and that list enumerates every violated field (each
violated rule contributes its field name), not only the first one found. -/
theorem validation_out_of_range_fails (b : RawBrief)
    (h : b.mood < 0 ∨ 100 < b.mood ∨ b.energy < 0 ∨ 100 < b.energy) :
    generateScript b = .error (briefErrors b) ∧
    ((b.mood < 0 ∨ 100 < b.mood) → "mood" ∈ briefErrors b) ∧
    ((b.energy < 0 ∨ 100 < b.energy) → "energy" ∈ briefErrors b) ∧
    (strip b.productName = "" → "productName" ∈ briefErrors b) ∧
    ((strip b.description = "" ∨ 5000 < b.description.length) →
      "description" ∈ briefErrors b) ∧
    (b.style ∉ styleIds → "style" ∈ briefErrors b) ∧
    (b.archetype ∉ archetypeIds → "archetype" ∈ briefErrors b) := by
  have hne : briefErrors b ≠ [] := by
    rcases h with h1 | h1 | h1 | h1
    · exact List.ne_nil_of_mem (mood_in_briefErrors b (Or.inl h1))
    · exact List.ne_nil_of_mem (mood_in_briefErrors b (Or.inr h1))
    · exact List.ne_nil_of_mem (energy_in_briefErrors b (Or.inl h1))
    · exact List.ne_nil_of_mem (energy_in_briefErrors b (Or.inr h1))
  exact ⟨generateScript_error_of_errors b hne,
    mood_in_briefErrors b, energy_in_briefErrors b,
    fun hp => productName_in_briefErrors b hp,
    fun hd => description_in_briefErrors b hd,
    style_in_briefErrors b, archetype_in_briefErrors b⟩

/-- A brief with `mood` above the range (and both text rules also violated),
used to witness that the error list enumerates multiple violated fields. -/
def overBrief : RawBrief :=
  { productName := "  ", description := "Reusable bottle", mood := 150, energy := -3,
    style := "cinematic", archetype := "hero-journey", targetAudience := "", callToAction := "" }

/-- Witness for C4: at `overBrief` (mood 150, energy -3, blank product name)
validation fails and the error list contains each of the violated fields. -/
theorem validation_out_of_range_fails_witness :
    generateScript overBrief = .error (briefErrors overBrief) ∧
    "mood" ∈ briefErrors overBrief ∧
    "energy" ∈ briefErrors overBrief ∧
    "productName" ∈ briefErrors overBrief := by
  have h := validation_out_of_range_fails overBrief (by decide)
  exact ⟨h.1, h.2.1 (by decide), h.2.2.1 (by decide), h.2.2.2.1 (by decide)⟩

/-- Claim C5: validation requires `productName` and `description` to be
non-empty after trimming, `description` length at most 5000, and `style` and
`archetype` to belong to their fixed six-value enumerations; in particular
any input whose description has length 5001 fails validation with a
field-scoped error naming `description`. -/
theorem validation_field_rules (b : RawBrief) :
    (∀ vb, validateBrief b = .ok vb →
      strip b.productName ≠ "" ∧ strip b.description ≠ "" ∧
      b.description.length ≤ 5000 ∧ b.style ∈ styleIds ∧ b.archetype ∈ archetypeIds) ∧
    (b.description.length = 5001 →
      ∃ e, validateBrief b = .error e ∧ "description" ∈ e) := by
  constructor
  · intro vb hok
    have hni : briefErrors b = [] := by
      by_contra hne
      unfold validateBrief at hok
      rw [if_neg hne] at hok
      exact Except.noConfusion hok
    refine ⟨?_, ?_, ?_, ?_, ?_⟩
    · intro hp
      exact List.ne_nil_of_mem (productName_in_briefErrors b hp) hni
    · intro hd
      exact List.ne_nil_of_mem (description_in_briefErrors b (Or.inl hd)) hni
    · by_contra h5
      push_neg at h5
      exact List.ne_nil_of_mem (description_in_briefErrors b (Or.inr h5)) hni
    · by_contra hsy
      exact List.ne_nil_of_mem (style_in_briefErrors b hsy) hni
    · by_contra har
      exact List.ne_nil_of_mem (archetype_in_briefErrors b har) hni
  · intro h5
    have hmem : "description" ∈ briefErrors b :=
      description_in_briefErrors b (Or.inr (by omega))
    have hne : briefErrors b ≠ [] := List.ne_nil_of_mem hmem
    refine ⟨briefErrors b, ?_, hmem⟩
    unfold validateBrief
    rw [if_neg hne]

/-- A description of exactly 5001 characters. -/
def longDescription : String := String.mk (List.replicate 5001 'a')

/-- An otherwise valid brief whose description has length 5001. -/
def longBrief : RawBrief :=
  { ecoBrief with description := longDescription }

/-- Witness for C5: the brief with a 5001-character description fails
validation with an error list naming `description`. -/
theorem validation_field_rules_witness :
    ∃ e, validateBrief longBrief = .error e ∧ "description" ∈ e := by
  refine (validation_field_rules longBrief).2 ?_
  have h : ∀ l : List Char, (String.mk l).length = l.length := fun l => rfl
  show longBrief.description.length = 5001
  rw [show longBrief.description = longDescription from rfl, longDescription,
    h, List.length_replicate]

/-- The result of one video-generation call: a URL and a hook score
(spec §3 `VideoResult`). -/
structure VideoResult where
  url : String
  hookScore : Nat
deriving Repr, DecidableEq

/-- Modelled from the spec: the slug the mock path of
`backend/video_service.py` (absent from the source tree) derives from the
product name to build the placeholder URL (spec §4.4 "a deterministic
placeholder URL from the product name (e.g., a slug)"). -/
def slugify (s : String) : String :=
  String.mk (s.data.map fun c => if c = ' ' then '-' else c.toLower)

/-- The hook-score computation of `frontend/components/VideoPreview.js`
line 6: `Math.floor(Math.random() * 30) + 70`.  The random draw
`Math.floor(Math.random() * 30)` (a value in 0..29) is modelled as
`draw % 30` for an arbitrary natural seed. -/
def mockHookScore (draw : Nat) : Nat := draw % 30 + 70

/-- Modelled from the spec: the mock path of `backend/video_service.py`
(absent from the source tree).  Per spec §4.4 it performs no network call,
always succeeds (a total function), returns a placeholder URL derived
deterministically from the product name, and attaches a pseudo-random hook
score (cosmetic metadata, computed as in `VideoPreview.js`). -/
def mockGenerateVideo (scenes : List Scene) (b : RawBrief) (draw : Nat) : VideoResult :=
  { url := "/videos/" ++ slugify b.productName ++ ".mp4", hookScore := mockHookScore draw }

/-- Claim C6: mock-path video generation is a total function (never raises,
performs no call to any external service), its URL is the fixed well-formed
string derived deterministically from the product name — so any two calls
with the same product name, over any scene lists and any random draws, agree
on the URL — and its hook score is an integer in [0,100] (a `Nat`, hence at
least 0, and at most 100). -/
theorem mockGenerateVideo_spec (scenes₁ scenes₂ : List Scene)
    (b₁ b₂ : RawBrief) (d₁ d₂ : Nat) (hname : b₁.productName = b₂.productName) :
    (mockGenerateVideo scenes₁ b₁ d₁).url = (mockGenerateVideo scenes₂ b₂ d₂).url ∧
    (mockGenerateVideo scenes₁ b₁ d₁).url = "/videos/" ++ slugify b₁.productName ++ ".mp4" ∧
    (mockGenerateVideo scenes₁ b₁ d₁).hookScore ≤ 100 := by
  refine ⟨?_, rfl, ?_⟩
  · simp [mockGenerateVideo, hname]
  · simp only [mockGenerateVideo, mockHookScore]
    omega

/-- Witness for C6: two mock calls for the EcoBottle brief with different
scene lists and draws return the same deterministic URL, bounded score. -/
theorem mockGenerateVideo_spec_witness :
    (mockGenerateVideo [] ecoBrief 5).url = (mockGenerateVideo (synthesize ecoBrief).2 ecoBrief 23).url ∧
    (mockGenerateVideo [] ecoBrief 5).url = "/videos/" ++ slugify ecoBrief.productName ++ ".mp4" ∧
    (mockGenerateVideo [] ecoBrief 5).hookScore ≤ 100 :=
  mockGenerateVideo_spec [] (synthesize ecoBrief).2 ecoBrief ecoBrief 5 23 rfl

/-- The state of the wizard page `frontend/pages/index.js` (`useState`
hooks: `step`, `adBrief`, `script`, `scenes`, `videoUrl`, `isGenerating`,
`error`). -/
structure AppState where
  step : Nat
  adBrief : RawBrief
  script : Option String
  scenes : List Scene
  videoUrl : Option String
  isGenerating : Bool
  error : Option String
deriving Repr, DecidableEq

/-- The client-side timeout of `frontend/pages/index.js`:
`setTimeout(() => controller.abort(), 10000)` in both handlers. -/
def requestTimeoutMs : Nat := 10000

/-- The timeout error shown by both handlers on `AbortError`. -/
def requestTimeoutErrorMsg : String :=
  "Request timed out. Please check if the backend server is running on port 8002."

/-- Fallback error for non-abort exceptions without a message. -/
def connectFailedMsg : String :=
  "Failed to connect to server. Make sure the backend is running on port 8002."

/-- Guard message of `handleGenerateVideo` when no scenes exist. -/
def noScenesMsg : String := "No scenes available. Please generate a script first."

/-- Guard message of `handleGenerateVideo` when the brief lacks a product name. -/
def missingBriefMsg : String := "Ad brief is missing. Please fill in the product details."

/-- Error thrown on a non-2xx response:
`Server error: status statusText. errorText`. -/
def serverErrorMsg (status : Nat) (statusText bodyText : String) : String :=
  "Server error: " ++ toString status ++ " " ++ statusText ++ ". " ++ bodyText

/-- The possible outcomes of the single `fetch` call of
`handleGenerateScript`: a 2xx response with `success: true` and payload, a
2xx response with `success: false` and optional error text, a non-2xx
response, an `AbortError` (the 10s timer fired and aborted the in-flight
call), or another network exception with optional message. -/
inductive ScriptOutcome where
  | ok (script : String) (scenes : List Scene)
  | apiFailure (msg : Option String)
  | httpError (status : Nat) (statusText : String) (bodyText : String)
  | aborted
  | networkFailure (msg : Option String)

/-- The possible outcomes of the single `fetch` call of
`handleGenerateVideo` (same shape, with a video URL payload). -/
inductive VideoOutcome where
  | ok (videoUrl : String)
  | apiFailure (msg : Option String)
  | httpError (status : Nat) (statusText : String) (bodyText : String)
  | aborted
  | networkFailure (msg : Option String)

/-- `handleGenerateScript` of `frontend/pages/index.js`, as a function from
the state and the outcome of its one `fetch` to the resulting state paired
with the number of outbound requests issued during the run (the body
contains exactly one `fetch` and no retry loop).  On success it stores the
script and scenes and moves to step 3; on `success: false` it shows the
returned error or a default; on a non-2xx status it shows the thrown
`Server error` message; on `AbortError` it shows the timeout message; on any
other exception it shows the exception message or a default.  Every failure
path resets `isGenerating`. -/
def handleGenerateScript (s : AppState) (out : ScriptOutcome) : AppState × Nat :=
  let s₁ := { s with isGenerating := true, error := none }
  match out with
  | .ok sc scs => ({ s₁ with script := some sc, scenes := scs, step := 3 }, 1)
  | .apiFailure m =>
      ({ s₁ with error := some (m.getD "Failed to generate script"), isGenerating := false }, 1)
  | .httpError st stx bd =>
      ({ s₁ with error := some (serverErrorMsg st stx bd), isGenerating := false }, 1)
  | .aborted =>
      ({ s₁ with error := some requestTimeoutErrorMsg, isGenerating := false }, 1)
  | .networkFailure m =>
      ({ s₁ with error := some (m.getD connectFailedMsg), isGenerating := false }, 1)

/-- `handleGenerateVideo` of `frontend/pages/index.js`.  It first validates:
with no scenes, or a brief lacking a product name, it sets the guard error and
returns before any request (request count 0).  Otherwise it behaves like
`handleGenerateScript` with the video payload: on success it stores the
video URL, resets `isGenerating` and moves to step 4. -/
def handleGenerateVideo (s : AppState) (out : VideoOutcome) : AppState × Nat :=
  if s.scenes = [] then
    ({ s with error := some noScenesMsg }, 0)
  else if s.adBrief.productName = "" then
    ({ s with error := some missingBriefMsg }, 0)
  else
    let s₁ := { s with isGenerating := true, error := none }
    match out with
    | .ok url => ({ s₁ with videoUrl := some url, isGenerating := false, step := 4 }, 1)
    | .apiFailure m =>
        ({ s₁ with error := some (m.getD "Failed to generate video"), isGenerating := false }, 1)
    | .httpError st stx bd =>
        ({ s₁ with error := some (serverErrorMsg st stx bd), isGenerating := false }, 1)
    | .aborted =>
        ({ s₁ with error := some requestTimeoutErrorMsg, isGenerating := false }, 1)
    | .networkFailure m =>
        ({ s₁ with error := some (m.getD connectFailedMsg), isGenerating := false }, 1)

/-- The start-over action of the wizard (`onStartOver` prop in
`frontend/pages/index.js`): `setStep(1); setScript(null); setScenes([]);
setVideoUrl(null)`. -/
def onStartOver (s : AppState) : AppState :=
  { s with step := 1, script := none, scenes := [], videoUrl := none }

/-- Claim C7: each generate-script / generate-video run arms a 10-second
(10000 ms) wall-clock timer that aborts the in-flight `fetch`; when it fires
the run ends with the abort outcome — the call is not awaited further — the
timeout error is surfaced to the caller (the `error` state), and the call is
never silently retried: every run issues at most one outbound request (the
script handler exactly one, the video handler at most one), whatever the
outcome. -/
theorem request_timeout_policy (s : AppState)
    (hs : s.scenes ≠ []) (hp : s.adBrief.productName ≠ "") :
    requestTimeoutMs = 10000 ∧
    (handleGenerateScript s .aborted).1.error = some requestTimeoutErrorMsg ∧
    (handleGenerateScript s .aborted).1.isGenerating = false ∧
    (handleGenerateVideo s .aborted).1.error = some requestTimeoutErrorMsg ∧
    (handleGenerateVideo s .aborted).1.isGenerating = false ∧
    (∀ out : ScriptOutcome, (handleGenerateScript s out).2 = 1) ∧
    (∀ out : VideoOutcome, (handleGenerateVideo s out).2 ≤ 1) := by
  refine ⟨rfl, rfl, rfl, ?_, ?_, ?_, ?_⟩
  · unfold handleGenerateVideo
    rw [if_neg hs, if_neg hp]
  · unfold handleGenerateVideo
    rw [if_neg hs, if_neg hp]
  · intro out
    cases out <;> rfl
  · intro out
    cases out <;> (unfold handleGenerateVideo; split_ifs <;> simp)

/-- A state at step 3 with the EcoBottle scenes loaded, ready for video
generation. -/
def demoState : AppState :=
  { step := 3, adBrief := ecoBrief, script := some "script",
    scenes := (synthesize ecoBrief).2, videoUrl := none,
    isGenerating := false, error := none }

/-- Witness for C7: the timeout policy at the concrete step-3 state. -/
theorem request_timeout_policy_witness :
    requestTimeoutMs = 10000 ∧
    (handleGenerateScript demoState .aborted).1.error = some requestTimeoutErrorMsg ∧
    (handleGenerateScript demoState .aborted).1.isGenerating = false ∧
    (handleGenerateVideo demoState .aborted).1.error = some requestTimeoutErrorMsg ∧
    (handleGenerateVideo demoState .aborted).1.isGenerating = false ∧
    (∀ out : ScriptOutcome, (handleGenerateScript demoState out).2 = 1) ∧
    (∀ out : VideoOutcome, (handleGenerateVideo demoState out).2 ≤ 1) :=
  request_timeout_policy demoState (by decide) (by decide)

/-- Claim C9: invoking `handleGenerateVideo` with an empty scenes list or a
brief lacking a product name sets an error message and returns before
initiating any network request (zero requests issued); starting from a
non-generating state `isGenerating` remains `false`, and the `script`,
`scenes` and `videoUrl` state are unchanged. -/
theorem handleGenerateVideo_guard (s : AppState) (out : VideoOutcome)
    (h : s.scenes = [] ∨ s.adBrief.productName = "")
    (hg : s.isGenerating = false) :
    (handleGenerateVideo s out).2 = 0 ∧
    (∃ m, (handleGenerateVideo s out).1.error = some m) ∧
    (handleGenerateVideo s out).1.isGenerating = false ∧
    (handleGenerateVideo s out).1.script = s.script ∧
    (handleGenerateVideo s out).1.scenes = s.scenes ∧
    (handleGenerateVideo s out).1.videoUrl = s.videoUrl := by
  unfold handleGenerateVideo
  rcases h with h₁ | h₁
  · rw [if_pos h₁]
    exact ⟨rfl, ⟨noScenesMsg, rfl⟩, hg, rfl, rfl, rfl⟩
  · by_cases h₂ : s.scenes = []
    · rw [if_pos h₂]
      exact ⟨rfl, ⟨noScenesMsg, rfl⟩, hg, rfl, rfl, rfl⟩
    · rw [if_neg h₂, if_pos h₁]
      exact ⟨rfl, ⟨missingBriefMsg, rfl⟩, hg, rfl, rfl, rfl⟩

/-- A step-3 state whose scenes list is empty. -/
def emptyScenesState : AppState :=
  { step := 3, adBrief := ecoBrief, script := some "script", scenes := [],
    videoUrl := none, isGenerating := false, error := none }

/-- Witness for C9: with an empty scenes list, `handleGenerateVideo` issues
no request, sets an error, and leaves the rest of the state unchanged. -/
theorem handleGenerateVideo_guard_witness :
    (handleGenerateVideo emptyScenesState (.ok "u")).2 = 0 ∧
    (∃ m, (handleGenerateVideo emptyScenesState (.ok "u")).1.error = some m) ∧
    (handleGenerateVideo emptyScenesState (.ok "u")).1.isGenerating = false ∧
    (handleGenerateVideo emptyScenesState (.ok "u")).1.script = emptyScenesState.script ∧
    (handleGenerateVideo emptyScenesState (.ok "u")).1.scenes = emptyScenesState.scenes ∧
    (handleGenerateVideo emptyScenesState (.ok "u")).1.videoUrl = emptyScenesState.videoUrl :=
  handleGenerateVideo_guard emptyScenesState (.ok "u") (Or.inl rfl) rfl

/-- Claim C10: the start-over action resets `step` to 1 and clears `script`,
`scenes` and `videoUrl`, while leaving every field of the `adBrief` state
(productName, description, mood, energy, style, archetype, targetAudience,
callToAction) unchanged. -/
theorem onStartOver_resets (s : AppState) :
    (onStartOver s).step = 1 ∧
    (onStartOver s).script = none ∧
    (onStartOver s).scenes = [] ∧
    (onStartOver s).videoUrl = none ∧
    (onStartOver s).adBrief = s.adBrief ∧
    (onStartOver s).adBrief.productName = s.adBrief.productName ∧
    (onStartOver s).adBrief.description = s.adBrief.description ∧
    (onStartOver s).adBrief.mood = s.adBrief.mood ∧
    (onStartOver s).adBrief.energy = s.adBrief.energy ∧
    (onStartOver s).adBrief.style = s.adBrief.style ∧
    (onStartOver s).adBrief.archetype = s.adBrief.archetype ∧
    (onStartOver s).adBrief.targetAudience = s.adBrief.targetAudience ∧
    (onStartOver s).adBrief.callToAction = s.adBrief.callToAction :=
  ⟨rfl, rfl, rfl, rfl, rfl, rfl, rfl, rfl, rfl, rfl, rfl, rfl, rfl⟩
